import Mathlib

/-!
Verification of resource-handling properties of cxoUtils.c from the
python-cx_Oracle repository.

The functions under study call out to external collaborators (the Python
C API, the json.dumps collaborator, and the ODPI-C native library).  Each
collaborator call is modelled by a boolean outcome supplied in an
environment record, and the reference-counting and allocation effects of
each function are recorded explicitly: how many references to the
serialized intermediate value were produced and released, how many
buffers were filled and cleared, and which native contexts were created
and destroyed.  The Lean definitions transcribe the C control flow
branch by branch.
-/

namespace CxOracle

/-- The shapes of Python objects that the dispatch tests in cxoUtils.c
distinguish: PyDict_Check, PyList_Check, PyObject_TypeCheck against
cxoPyTypeSodaDoc, and everything else (strings, bytes, other objects). -/
inductive PyKind where
  | dict
  | list
  | sodaDoc
  | other
deriving DecidableEq, Repr

/-- The test performed at lines 165 and 198 of cxoUtils.c:
PyDict_Check(arg) or PyList_Check(arg). -/
def isDictOrList (k : PyKind) : Bool :=
  k = PyKind.dict || k = PyKind.list

/-- Reference-counting and buffer effects of one call to a normalizer:
how many new references to the serialized intermediate value produced by
the json.dumps collaborator were obtained and how many were released
with Py_DECREF, and how many cxoBuffer fills and clears happened. -/
structure RefEffects where
  serializedAllocs : Nat
  serializedReleases : Nat
  bufferAllocs : Nat
  bufferReleases : Nat
deriving DecidableEq, Repr

/-- The all-zero effects record. -/
def RefEffects.zero : RefEffects := ⟨0, 0, 0, 0⟩

/-- Outcomes of the external calls made by cxoUtils_processJsonArg:
whether the json.dumps collaborator succeeds and whether
cxoBuffer_fromObject succeeds. -/
structure JsonArgEnv where
  dumpOk : Bool
  encodeOk : Bool
deriving DecidableEq, Repr

/-- Shallow embedding of cxoUtils_processJsonArg (cxoUtils.c lines
161-177).  The argument is an optional object, mirroring the NULL test
at line 165.  Returns the C return code paired with the resource
effects of the call.

Control flow transcribed from the source:
if the argument is non-NULL and a dict or list, call json.dumps; a
failure there returns -1 at once (line 168); on success the rebound
local now holds one new reference and converted is set.  Then
cxoBuffer_fromObject is called; on its failure the function returns -1
immediately (line 172) with no further statement executed, so no
Py_DECREF of the converted value happens on that path.  On success,
Py_DECREF(arg) runs when converted is set (lines 173-174) and the
function returns 0, handing the filled buffer to the caller. -/
def cxoUtils_processJsonArg (arg : Option PyKind) (env : JsonArgEnv) :
    Int × RefEffects :=
  match arg with
  | some k =>
    if isDictOrList k then
      if env.dumpOk then
        if env.encodeOk then
          (0, ⟨1, 1, 1, 0⟩)
        else
          (-1, ⟨1, 0, 0, 0⟩)
      else
        (-1, RefEffects.zero)
    else
      if env.encodeOk then (0, ⟨0, 0, 1, 0⟩) else (-1, RefEffects.zero)
  | none =>
    if env.encodeOk then (0, ⟨0, 0, 1, 0⟩) else (-1, RefEffects.zero)

/-- Outcomes of the external calls made by cxoUtils_processSodaDocArg:
whether dpiSodaDoc_addRef, the json.dumps collaborator,
cxoBuffer_fromObject and dpiSodaDb_createDocument succeed. -/
structure SodaEnv where
  addRefOk : Bool
  dumpOk : Bool
  encodeOk : Bool
  createDocOk : Bool
deriving DecidableEq, Repr

/-- Shallow embedding of cxoUtils_processSodaDocArg (cxoUtils.c lines
187-220).  Returns the C return code paired with the resource effects.

Control flow transcribed from the source: a wrapped SODA document takes
the addRef branch (lines 193-197) and touches no intermediate resource.
A dict or list is serialized by json.dumps (line 199); failure returns
-1 with nothing allocated.  On success one new reference to the
serialized value is held; if cxoBuffer_fromObject fails, Py_DECREF(arg)
runs and the function returns -1 (lines 202-205); if it succeeds,
Py_DECREF(arg) runs at once (line 206), then dpiSodaDb_createDocument
is called, and cxoBuffer_clear runs on both the failure path (line 209)
and the success path (line 212).  Any other argument shape raises
TypeError and returns -1 (lines 213-217). -/
def cxoUtils_processSodaDocArg (arg : PyKind) (env : SodaEnv) :
    Int × RefEffects :=
  if arg = PyKind.sodaDoc then
    if env.addRefOk then (0, RefEffects.zero) else (-1, RefEffects.zero)
  else if isDictOrList arg then
    if env.dumpOk then
      if env.encodeOk then
        if env.createDocOk then
          (0, ⟨1, 1, 1, 1⟩)
        else
          (-1, ⟨1, 1, 1, 1⟩)
      else
        (-1, ⟨1, 1, 0, 0⟩)
    else
      (-1, RefEffects.zero)
  else
    (-1, RefEffects.zero)

/-- The fields of dpiContextCreateParams that cxoUtils_initializeDPI
adjusts before handing the set to the native library. -/
structure DpiContextCreateParams where
  defaultEncoding : Option String
  defaultDriverName : Option String
  loadErrorUrl : Option String
deriving DecidableEq, Repr

/-- Modelled from the spec: the fixed default driver-name constant
CXO_DRIVER_NAME, defined in cxoModule.h which is not under src/; the
spec calls it a fixed constant used as fallback.  Its concrete text is
irrelevant to every claim here. -/
def CXO_DRIVER_NAME : String := "cx_Oracle"

/-- The fixed documentation URL fallback from cxoUtils.c lines 137-138. -/
def cxoLoadErrorUrl : String :=
  "https://cx-oracle.readthedocs.io/en/latest/user_guide/installation.html"

/-- The parameter adjustment of cxoUtils_initializeDPI lines 127-138:
start from the caller parameters or a zeroed record, force the default
encoding to UTF-8, and default the driver name and the load-error URL
when unset. -/
def setupLocalParams (params : Option DpiContextCreateParams) :
    DpiContextCreateParams :=
  let localParams := match params with
    | some p => p
    | none => ⟨none, none, none⟩
  let localParams := { localParams with defaultEncoding := some ("UTF-8") }
  let localParams :=
    if localParams.defaultDriverName.isNone then
      { localParams with defaultDriverName := some CXO_DRIVER_NAME }
    else localParams
  if localParams.loadErrorUrl.isNone then
    { localParams with loadErrorUrl := some cxoLoadErrorUrl }
  else localParams

/-- The module-level globals that cxoUtils_initializeDPI reads and
writes: the process-wide cxoDpiContext handle (none models NULL) and
the cached cxoClientVersionInfo snapshot. -/
structure DpiGlobals where
  cxoDpiContext : Option Nat
  cxoClientVersionInfo : Option Nat
deriving DecidableEq, Repr

/-- Outcomes of the native-library calls made by cxoUtils_initializeDPI:
whether dpiContext_createWithParams succeeds and which handle it
produces, and whether dpiContext_getClientVersion succeeds and which
version snapshot it yields. -/
structure DpiEnv where
  createOk : Bool
  newContext : Nat
  getVersionOk : Bool
  clientVersion : Nat
deriving DecidableEq, Repr

/-- Native context lifecycle effects of one call: the handles obtained
from dpiContext_createWithParams and the handles passed to
dpiContext_destroy, in order. -/
structure DpiEffects where
  contextsCreated : List Nat
  contextsDestroyed : List Nat
deriving DecidableEq, Repr

/-- Shallow embedding of cxoUtils_initializeDPI (cxoUtils.c lines
109-152).  Takes the optional caller parameters, the current globals
and the native-call outcomes; returns the C return code, the globals
after the call, and the context lifecycle effects.

Control flow transcribed from the source: if cxoDpiContext is already
set, absent parameters are a no-op success (line 121) and present
parameters raise ProgrammingError and return -1 (lines 122-124).
Otherwise the local parameter set is built (lines 127-138) and
dpiContext_createWithParams is called: on failure the error is raised
and -1 returned with nothing else touched (line 143); on success, if
dpiContext_getClientVersion fails, the error is raised, the fresh
context is destroyed and -1 returned (lines 144-148); only when both
calls succeed is cxoDpiContext assigned (line 150) and 0 returned. -/
def cxoUtils_initializeDPI (params : Option DpiContextCreateParams)
    (g : DpiGlobals) (env : DpiEnv) : Int × DpiGlobals × DpiEffects :=
  match g.cxoDpiContext with
  | some _ =>
    if params.isNone then
      (0, g, ⟨[], []⟩)
    else
      (-1, g, ⟨[], []⟩)
  | none =>
    let _localParams := setupLocalParams params
    if env.createOk then
      if env.getVersionOk then
        (0, ⟨some env.newContext, some env.clientVersion⟩,
          ⟨[env.newContext], []⟩)
      else
        (-1, g, ⟨[env.newContext], [env.newContext]⟩)
    else
      (-1, g, ⟨[], []⟩)

/-- Claim C1: the claim states that in cxoUtils_processJsonArg, when the
argument is a dict or list, json.dumps succeeds and the UTF-8 encoding
then fails, the serialized intermediate value is released exactly once
before the failure return.  Evaluating the embedded code at exactly
that input shows the opposite: the function returns -1 with one
reference to the serialized value obtained and zero releases
(serializedAllocs = 1, serializedReleases = 0), so the serialized
intermediate is leaked on that path.  The early return at line 172 of
cxoUtils.c skips the Py_DECREF at line 174, unlike the sibling
function cxoUtils_processSodaDocArg which does release it at line 203. -/
theorem cxoUtils_processJsonArg_leaks_on_encode_failure :
    (cxoUtils_processJsonArg (some PyKind.dict) ⟨true, false⟩ =
      (-1, ⟨1, 0, 0, 0⟩)) ∧
    (cxoUtils_processJsonArg (some PyKind.list) ⟨true, false⟩ =
      (-1, ⟨1, 0, 0, 0⟩)) := by
  constructor <;> rfl

/-- Claim C2: cxoUtils_initializeDPI is atomic on failure when starting
uninitialized.  If dpiContext_createWithParams fails, the call returns
-1 with the globals unchanged (still uninitialized, so a retry is
possible) and no context created.  If creation succeeds but
dpiContext_getClientVersion fails, the call returns -1 with the globals
unchanged and the single created context destroyed before returning.
The global handle ends up set only when both native calls succeed and
the function returns 0. -/
theorem cxoUtils_initializeDPI_atomic (params : Option DpiContextCreateParams)
    (g : DpiGlobals) (env : DpiEnv) (h : g.cxoDpiContext = none) :
    (env.createOk = false →
      cxoUtils_initializeDPI params g env = (-1, g, ⟨[], []⟩)) ∧
    (env.createOk = true → env.getVersionOk = false →
      cxoUtils_initializeDPI params g env =
        (-1, g, ⟨[env.newContext], [env.newContext]⟩)) ∧
    ((cxoUtils_initializeDPI params g env).2.1.cxoDpiContext ≠ none →
      env.createOk = true ∧ env.getVersionOk = true ∧
        (cxoUtils_initializeDPI params g env).1 = 0) := by
  rcases g with ⟨gc, gv⟩
  simp only at h
  subst h
  rcases env with ⟨c, n, v, ver⟩
  cases c <;> cases v <;> simp [cxoUtils_initializeDPI]

/-- Witness for cxoUtils_initializeDPI_atomic at a concrete input:
no parameters, globals uninitialized, context creation succeeding with
handle 7 and the client-version fetch failing; the call returns -1,
leaves the globals unchanged and destroys context 7. -/
theorem cxoUtils_initializeDPI_atomic_witness :
    (DpiGlobals.mk none none).cxoDpiContext = none ∧
    ((DpiEnv.mk true 7 false 3).createOk = true →
      (DpiEnv.mk true 7 false 3).getVersionOk = false →
      cxoUtils_initializeDPI none (DpiGlobals.mk none none)
          (DpiEnv.mk true 7 false 3) =
        (-1, DpiGlobals.mk none none, ⟨[7], [7]⟩)) :=
  ⟨rfl, (cxoUtils_initializeDPI_atomic none (DpiGlobals.mk none none)
    (DpiEnv.mk true 7 false 3) rfl).2.1⟩

/-- Claim C3: in cxoUtils_processSodaDocArg, for every dict or list
argument whose JSON serialization succeeds, the serialized intermediate
value is obtained and released exactly once on every exit path, the
buffer is cleared exactly as many times as it was filled on every exit
path, and whenever the UTF-8 encoding succeeds the buffer is filled and
cleared exactly once, whether dpiSodaDb_createDocument succeeded or
failed. -/
theorem cxoUtils_processSodaDocArg_cleanup (k : PyKind) (env : SodaEnv)
    (hk : isDictOrList k = true) (hd : env.dumpOk = true) :
    ((cxoUtils_processSodaDocArg k env).2.serializedAllocs = 1 ∧
     (cxoUtils_processSodaDocArg k env).2.serializedReleases = 1) ∧
    ((cxoUtils_processSodaDocArg k env).2.bufferReleases =
      (cxoUtils_processSodaDocArg k env).2.bufferAllocs) ∧
    (env.encodeOk = true →
      (cxoUtils_processSodaDocArg k env).2.bufferAllocs = 1 ∧
      (cxoUtils_processSodaDocArg k env).2.bufferReleases = 1) := by
  rcases env with ⟨a, d, e, c⟩
  simp only at hd
  subst hd
  cases k <;> simp_all [cxoUtils_processSodaDocArg, isDictOrList] <;>
    cases e <;> cases c <;> simp

/-- Witness for cxoUtils_processSodaDocArg_cleanup at a concrete input:
a list argument with serialization and encoding succeeding and document
creation failing; the serialized value and the buffer are each released
exactly once. -/
theorem cxoUtils_processSodaDocArg_cleanup_witness :
    isDictOrList PyKind.list = true ∧
    (SodaEnv.mk true true true false).dumpOk = true ∧
    ((((cxoUtils_processSodaDocArg PyKind.list
          (SodaEnv.mk true true true false)).2.serializedAllocs = 1 ∧
       (cxoUtils_processSodaDocArg PyKind.list
          (SodaEnv.mk true true true false)).2.serializedReleases = 1) ∧
      ((cxoUtils_processSodaDocArg PyKind.list
          (SodaEnv.mk true true true false)).2.bufferReleases =
        (cxoUtils_processSodaDocArg PyKind.list
          (SodaEnv.mk true true true false)).2.bufferAllocs) ∧
      ((SodaEnv.mk true true true false).encodeOk = true →
        (cxoUtils_processSodaDocArg PyKind.list
          (SodaEnv.mk true true true false)).2.bufferAllocs = 1 ∧
        (cxoUtils_processSodaDocArg PyKind.list
          (SodaEnv.mk true true true false)).2.bufferReleases = 1))) :=
  ⟨rfl, rfl, cxoUtils_processSodaDocArg_cleanup PyKind.list
    (SodaEnv.mk true true true false) rfl rfl⟩

end CxOracle
